import Mathlib

/-!
Shallow embedding of the runtime resolution and dispatch support layer of
`src/src/runtime_support.h` (allocation entry points, fast-path field and
method resolution, the cooperative suspend check, and the JNI
synchronized-method unlock guard), together with theorems settling the
specification claims about these routines.

Classes, fields, methods and objects are referenced by density-free ids
(`Nat`); the immutable metadata reachable through pointer chains in the
source (declaring class, dex cache, vtable, access predicates, the external
class-linker services) is collected in a `World` record, and the mutable
runtime state threaded by the allocation routines (class initialization
states, the thread's pending exception, call counters for the external
resolver and initializer) lives in `RState`.
-/

namespace Art

/-- Class initialization status (spec §3): the fast paths gate on
"at least initializing", the allocation path on "initialized". -/
inductive InitState where
  | uninitialized
  | initializing
  | initialized
  | erroneous
deriving DecidableEq, Repr

/-- `Class::IsInitializing()`: status is initializing or initialized. -/
def InitState.isInitializingB : InitState → Bool
  | .initializing => true
  | .initialized => true
  | _ => false

/-- `Class::IsInitialized()`: status is initialized. -/
def InitState.isInitializedB : InitState → Bool
  | .initialized => true
  | _ => false

/-- Managed exceptions set as the thread's pending exception; the payload
models the message/diagnostic each throw site attaches. -/
inductive Exn where
  | negativeArraySize (count : Int)
  | instantiationError (klass : Nat)
  | illegalAccessErrorClass (referrer klass : Nat)
  | other (tag : Nat)
deriving DecidableEq, Repr

/-- `InvokeType` (invoke_type.h): the five dispatch kinds consumed by
`FindMethodFast`. -/
inductive InvokeType where
  | kStatic
  | kDirect
  | kVirtual
  | kSuper
  | kInterface
deriving DecidableEq, Repr

/-- `FindFieldType` (runtime_support.h): the eight field-access kinds. -/
inductive FindFieldType where
  | InstanceObjectRead
  | InstanceObjectWrite
  | InstancePrimitiveRead
  | InstancePrimitiveWrite
  | StaticObjectRead
  | StaticObjectWrite
  | StaticPrimitiveRead
  | StaticPrimitiveWrite
deriving DecidableEq, Repr

/-- The `(is_primitive, is_set, is_static)` classification switch at the
top of `FindFieldFast`. -/
def classifyFieldType : FindFieldType → Bool × Bool × Bool
  | .InstanceObjectRead     => (false, false, false)
  | .InstanceObjectWrite    => (false, true,  false)
  | .InstancePrimitiveRead  => (true,  false, false)
  | .InstancePrimitiveWrite => (true,  true,  false)
  | .StaticObjectRead       => (false, false, true)
  | .StaticObjectWrite      => (false, true,  true)
  | .StaticPrimitiveRead    => (true,  false, true)
  | .StaticPrimitiveWrite   => (true,  true,  true)

/-- `mirror::Field`: resolved field descriptor (declaring class id, access
flags, classification and storage size as read through `FieldHelper`). -/
structure FieldInfo where
  declaringClass : Nat
  accessFlags : Nat
  isStatic : Bool
  isFinal : Bool
  isPrimitiveType : Bool
  fieldSize : Nat
deriving Repr

/-- `mirror::AbstractMethod`: resolved method descriptor; `methodIndex` is
the stable vtable slot used by virtual/super dispatch. -/
structure MethodInfo where
  declaringClass : Nat
  accessFlags : Nat
  methodIndex : Nat
deriving Repr

/-- `mirror::Class` metadata reachable from a class pointer: instantiability
and array-ness flags, superclass, vtable (`GetVTable()->Get`, an unchecked
indexed load), `FindVirtualMethodForInterface`, and the class's DexCache
tables of already-resolved types/fields/methods. -/
structure ClassInfo where
  isInstantiable : Bool
  isArrayClass : Bool
  superClass : Nat
  vtable : Nat → Nat
  findVirtualForInterface : Nat → Option Nat
  dexCacheTypes : Nat → Option Nat
  dexCacheFields : Nat → Option Nat
  dexCacheMethods : Nat → Option Nat

/-- The immutable surroundings of one call: object/field/method/class
tables, the current class-initialization snapshot, the access-control
predicates, and the external class-linker and GC services
(`ResolveType`, `EnsureInitialized`, `AllocObject`, `Array::Alloc`)
modelled as oracles together with the exception each sets on failure. -/
structure World where
  classes : Nat → ClassInfo
  fields : Nat → FieldInfo
  methods : Nat → MethodInfo
  objects : Nat → Nat
  initState : Nat → InitState
  canAccess : Nat → Nat → Bool
  canAccessMember : Nat → Nat → Nat → Bool
  icce : Nat → InvokeType → Bool
  resolveType : Nat → Nat → Option Nat
  resolveTypeExn : Nat → Nat → Exn
  ensureInitOk : Nat → Bool
  ensureInitExn : Nat → Exn
  allocObject : Nat → Option Nat
  allocArray : Nat → Int → Option Nat

/-- Mutable runtime state threaded through the allocation entry points:
the world (whose `initState` component `EnsureInitialized` may advance),
the thread's single pending-exception slot, and call counters observing
the two external services the claims speak about. -/
structure RState where
  world : World
  pendingException : Option Exn
  resolveCalls : Nat
  ensureInitCalls : Nat

/-- `FindFieldFast(field_idx, referrer, type, expected_size)`
(runtime_support.h:143-191). The source function takes no `Thread*` and
performs only const reads, so it embeds as a pure function of the world:
it can set no pending exception and mutate no state by construction. -/
def FindFieldFast (w : World) (field_idx : Nat) (referrer : Nat)
    (ty : FindFieldType) (expected_size : Nat) : Option Nat :=
  match (w.classes (w.methods referrer).declaringClass).dexCacheFields field_idx with
  | none => none
  | some resolved_field =>
    let f := w.fields resolved_field
    let fields_class := f.declaringClass
    -- Check class is initialized or initializing.
    if !(w.initState fields_class).isInitializingB then
      none
    else
      let is_primitive := (classifyFieldType ty).1
      let is_set := (classifyFieldType ty).2.1
      let is_static := (classifyFieldType ty).2.2
      if f.isStatic ≠ is_static then
        -- Incompatible class change.
        none
      else
        let referring_class := (w.methods referrer).declaringClass
        if !w.canAccess referring_class fields_class ||
            !w.canAccessMember referring_class fields_class f.accessFlags ||
            (is_set && f.isFinal && decide (fields_class ≠ referring_class)) then
          -- Illegal access.
          none
        else if f.isPrimitiveType ≠ is_primitive ∨ f.fieldSize ≠ expected_size then
          none
        else
          some resolved_field

/-- The final dispatch block of `FindMethodFast`
(runtime_support.h:223-233): how the cached method becomes the effective
method, by dispatch kind. `this_object` is known non-null here for the
interface/virtual kinds (the entry guard filtered null receivers), so the
null branch of the receiver lookup is unreachable. -/
def methodDispatch (w : World) (this_object : Option Nat) (referrer : Nat)
    (ty : InvokeType) (resolved_method : Nat) : Option Nat :=
  let receiverClass : Nat :=
    match this_object with
    | some o => w.objects o
    | none => 0
  if ty = InvokeType.kInterface then
    (w.classes receiverClass).findVirtualForInterface resolved_method
  else if ty = InvokeType.kStatic ∨ ty = InvokeType.kDirect then
    some resolved_method
  else if ty = InvokeType.kSuper then
    some ((w.classes (w.classes (w.methods referrer).declaringClass).superClass).vtable
      (w.methods resolved_method).methodIndex)
  else
    some ((w.classes receiverClass).vtable (w.methods resolved_method).methodIndex)

/-- `FindMethodFast(method_idx, this_object, referrer, access_check, type)`
(runtime_support.h:194-234). Like `FindFieldFast` it takes no `Thread*`
and only reads, so it embeds as a pure function of the world. -/
def FindMethodFast (w : World) (method_idx : Nat) (this_object : Option Nat)
    (referrer : Nat) (access_check : Bool) (ty : InvokeType) : Option Nat :=
  let is_direct := ty = InvokeType.kStatic ∨ ty = InvokeType.kDirect
  if this_object = none ∧ ¬is_direct then
    none
  else
    match (w.classes (w.methods referrer).declaringClass).dexCacheMethods method_idx with
    | none => none
    | some resolved_method =>
      if access_check then
        -- Check for incompatible class change errors and access.
        if w.icce resolved_method ty then
          none
        else
          let methods_class := (w.methods resolved_method).declaringClass
          let referring_class := (w.methods referrer).declaringClass
          if !w.canAccess referring_class methods_class ||
              !w.canAccessMember referring_class methods_class
                (w.methods resolved_method).accessFlags then
            -- Potential illegal access.
            none
          else
            methodDispatch w this_object referrer ty resolved_method
      else
        methodDispatch w this_object referrer ty resolved_method

/-- The shared type-resolution step at the head of both allocation entry
points: consult the referrer's DexCache resolved-types table; on a miss,
call the class linker's `ResolveType` (counted), which either yields a
class or leaves its failure as the pending exception. -/
def resolveTypeStep (type_idx : Nat) (method : Nat) (s : RState) :
    Option Nat × RState :=
  match (s.world.classes (s.world.methods method).declaringClass).dexCacheTypes type_idx with
  | some klass => (some klass, s)
  | none =>
    let s1 : RState := { s with resolveCalls := s.resolveCalls + 1 }
    match s.world.resolveType type_idx method with
    | some klass => (some klass, s1)
    | none =>
      (none, { s1 with pendingException := some (s.world.resolveTypeExn type_idx method) })

/-- The initialization-then-allocate tail of `AllocObjectFromCode`
(runtime_support.h:81-86): if the class is not initialized, call
`EnsureInitialized` (counted); on its failure the pending exception it set
is the result, on success the class is initialized and allocation is
delegated to the GC service. -/
def allocObjectTail (klass : Nat) (s : RState) : Option Nat × RState :=
  if !(s.world.initState klass).isInitializedB then
    let s1 : RState := { s with ensureInitCalls := s.ensureInitCalls + 1 }
    if s.world.ensureInitOk klass then
      let w1 : World :=
        { s.world with
          initState := fun c => if c = klass then .initialized else s.world.initState c }
      (s.world.allocObject klass, { s1 with world := w1 })
    else
      (none, { s1 with pendingException := some (s.world.ensureInitExn klass) })
  else
    (s.world.allocObject klass, s)

/-- `AllocObjectFromCode(type_idx, method, self, access_check)`
(runtime_support.h:56-87): resolve the type, optionally check
instantiability then accessibility, ensure initialization, allocate. -/
def AllocObjectFromCode (type_idx : Nat) (method : Nat) (access_check : Bool)
    (s : RState) : Option Nat × RState :=
  match resolveTypeStep type_idx method s with
  | (none, s1) => (none, s1)  -- Failure, exception pending from the resolver.
  | (some klass, s1) =>
    if access_check ∧ !(s1.world.classes klass).isInstantiable then
      (none, { s1 with pendingException := some (Exn.instantiationError klass) })
    else if access_check ∧
        !s1.world.canAccess (s1.world.methods method).declaringClass klass then
      let e := Exn.illegalAccessErrorClass (s1.world.methods method).declaringClass klass
      (none, { s1 with pendingException := some e })
    else
      allocObjectTail klass s1

/-- Result of `AllocArrayFromCode`: a normal return (value plus final
state) or a fatal `CHECK` failure aborting the process. -/
inductive ArrOutcome where
  | ret (v : Option Nat) (s : RState)
  | fatal (klass : Nat)

/-- Final state of an `ArrOutcome`, when the call returned at all. -/
def ArrOutcome.state? : ArrOutcome → Option RState
  | .ret _ s => some s
  | .fatal _ => none

/-- The access-check-then-allocate tail of `AllocArrayFromCode`
(runtime_support.h:110-117). -/
def allocArrayTail (klass : Nat) (component_count : Int) (method : Nat)
    (access_check : Bool) (s : RState) : ArrOutcome :=
  if access_check ∧ !s.world.canAccess (s.world.methods method).declaringClass klass then
    let e := Exn.illegalAccessErrorClass (s.world.methods method).declaringClass klass
    .ret none { s with pendingException := some e }
  else
    .ret (s.world.allocArray klass component_count) s

/-- `AllocArrayFromCode(type_idx, method, component_count, self, access_check)`
(runtime_support.h:93-118): the negative-length check comes first, then
type resolution — with the `CHECK(klass->IsArrayClass())` fatal assertion
sitting inside the cache-miss (slow resolution) branch only — then the
optional access check and the delegated allocation. -/
def AllocArrayFromCode (type_idx : Nat) (method : Nat) (component_count : Int)
    (access_check : Bool) (s : RState) : ArrOutcome :=
  if component_count < 0 then
    .ret none { s with pendingException := some (Exn.negativeArraySize component_count) }
  else
    match (s.world.classes (s.world.methods method).declaringClass).dexCacheTypes type_idx with
    | some klass => allocArrayTail klass component_count method access_check s
    | none =>  -- Not in dex cache so try to resolve
      match s.world.resolveType type_idx method with
      | none =>  -- Error
        .ret none { s with resolveCalls := s.resolveCalls + 1,
                           pendingException := some (s.world.resolveTypeExn type_idx method) }
      | some klass =>
        if !(s.world.classes klass).isArrayClass then
          .fatal klass  -- CHECK(klass->IsArrayClass())
        else
          allocArrayTail klass component_count method access_check
            { s with resolveCalls := s.resolveCalls + 1 }

/-- Result of `UnlockJniSynchronizedMethod`: a normal return carrying the
thread's pending exception afterwards, or a `LOG(FATAL)` process abort. -/
inductive UnlockOutcome where
  | normal (pending : Option Exn)
  | fatal
deriving DecidableEq, Repr

/-- `UnlockJniSynchronizedMethod(locked, self)` (runtime_support.h:255-276),
as a function of the thread's pending exception on entry and of whether the
`MonitorExit` call raises (the monitor being an external collaborator, its
behaviour is a parameter): save and clear any pending exception, perform
the monitor exit, `LOG(FATAL)` if an exception is pending afterwards —
note this fires whether or not anything was saved — else restore. -/
def UnlockJniSynchronizedMethod (entryPending : Option Exn)
    (monitorExitRaises : Option Exn) : UnlockOutcome :=
  -- Save any pending exception over monitor exit call.
  let saved_exception : Option Exn := entryPending
  -- After ClearException the slot is empty; MonitorExit sets it iff it raises.
  let afterExit : Option Exn := monitorExitRaises
  if afterExit.isSome then
    .fatal  -- LOG(FATAL) << ... saved_exception->Dump() ... GetException()->Dump()
  else
    -- Restore pending exception.
    match saved_exception with
    | some e => .normal (some e)
    | none => .normal none

/-- Modelled from the spec: the thread flag/checkpoint primitives
(`ReadFlag`, `RunCheckpointFunction`, `AtomicClearFlag`,
`FullSuspendCheck`) are declared in thread.h, which is outside the source
slice; per spec §4.5 running the checkpoint closure touches no flag (the
flag is cleared by the separate `AtomicClearFlag` that follows), and
`FullSuspendCheck` blocks until the requester releases the thread, which
clears the suspend request. The state holds the two request flags plus
counters recording how often the checkpoint closure was run and how often
the thread went through a full suspend/resume round. -/
structure SThread where
  checkpointRequest : Bool
  suspendRequest : Bool
  checkpointRuns : Nat
  suspendRounds : Nat
deriving DecidableEq, Repr

/-- `CheckSuspend(thread)` (runtime_support.h:298-309): loop — checkpoint
branch first, then suspend branch, else break. -/
def CheckSuspend (t : SThread) : SThread :=
  if t.checkpointRequest then
    CheckSuspend { t with
      checkpointRuns := t.checkpointRuns + 1,  -- RunCheckpointFunction()
      checkpointRequest := false }             -- AtomicClearFlag(kCheckpointRequest)
  else if t.suspendRequest then
    CheckSuspend { t with
      suspendRounds := t.suspendRounds + 1,    -- FullSuspendCheck()
      suspendRequest := false }                -- released by the requester
  else
    t
termination_by (if t.checkpointRequest then 1 else 0) +
  (if t.suspendRequest then 1 else 0)
decreasing_by
  · simp_all
  · simp_all

/-! ### Concrete fixtures used by witnesses and counterexamples -/

/-- A class with empty dex caches and default attributes. -/
def class0 : ClassInfo :=
  { isInstantiable := true
    isArrayClass := false
    superClass := 0
    vtable := fun _ => 0
    findVirtualForInterface := fun _ => none
    dexCacheTypes := fun _ => none
    dexCacheFields := fun _ => none
    dexCacheMethods := fun _ => none }

/-- A plain instance field of class 0, 4 bytes, primitive, not final. -/
def field0 : FieldInfo :=
  { declaringClass := 0
    accessFlags := 0
    isStatic := false
    isFinal := false
    isPrimitiveType := true
    fieldSize := 4 }

/-- A method declared by class 0 sitting in vtable slot 0. -/
def method0 : MethodInfo :=
  { declaringClass := 0
    accessFlags := 0
    methodIndex := 0 }

/-- A benign base world: every access allowed, no cached entries, external
services succeed. -/
def world0 : World :=
  { classes := fun _ => class0
    fields := fun _ => field0
    methods := fun _ => method0
    objects := fun _ => 0
    initState := fun _ => .initialized
    canAccess := fun _ _ => true
    canAccessMember := fun _ _ _ => true
    icce := fun _ _ => false
    resolveType := fun _ _ => none
    resolveTypeExn := fun _ _ => .other 1
    ensureInitOk := fun _ => true
    ensureInitExn := fun _ => .other 2
    allocObject := fun _ => some 100
    allocArray := fun _ _ => some 101 }

/-- Runtime state over `world0` with no pending exception and zeroed
counters. -/
def state0 : RState :=
  { world := world0
    pendingException := none
    resolveCalls := 0
    ensureInitCalls := 0 }

/-- A world whose class 0 caches class 1 as resolved type for every index,
with class 1 marked non-instantiable. -/
def world5 : World :=
  { world0 with classes := fun c =>
      if c = 0 then { class0 with dexCacheTypes := fun _ => some 1 }
      else { class0 with isInstantiable := false } }

/-- Runtime state over `world5`. -/
def state5 : RState := { state0 with world := world5 }

/-- A world whose class 0 caches class 1 as resolved type for every index;
class 1 is not an array class. -/
def worldArr : World :=
  { world0 with classes := fun c =>
      if c = 0 then { class0 with dexCacheTypes := fun _ => some 1 }
      else class0 }

/-- Runtime state over `worldArr`. -/
def stateArr : RState := { state0 with world := worldArr }

/-- A world where slow-path resolution of any type yields class 1, which is
not an array class (no dex-cache entry). -/
def worldSlow : World := { world0 with resolveType := fun _ _ => some 1 }

/-- Runtime state over `worldSlow`. -/
def stateSlow : RState := { state0 with world := worldSlow }

/-- A world whose class 0 caches field 0 for every field index. -/
def worldF : World :=
  { world0 with classes := fun c =>
      if c = 0 then { class0 with dexCacheFields := fun _ => some 0 }
      else class0 }

/-- Like `worldF` but with all class-access queries denied. -/
def worldFDeny : World := { worldF with canAccess := fun _ _ => false }

/-- A world whose class 0 caches method 5 for every method index; method 5
sits in vtable slot 2; object 9 is an instance of class 3, whose vtable
holds method 40 + i in slot i. -/
def worldM : World :=
  { world0 with
    classes := fun c =>
      if c = 0 then { class0 with dexCacheMethods := fun _ => some 5 }
      else if c = 3 then { class0 with vtable := fun i => 40 + i }
      else class0
    methods := fun m =>
      if m = 5 then { method0 with methodIndex := 2 } else method0
    objects := fun o => if o = 9 then 3 else 0 }

example : FindFieldFast world0 0 0 .InstancePrimitiveRead 4 = none := rfl
example : FindMethodFast world0 0 (some 3) 0 true .kVirtual = none := rfl
example : FindMethodFast worldM 0 (some 9) 0 false .kVirtual = some 42 := rfl
example : UnlockJniSynchronizedMethod (some (Exn.other 7)) none =
  UnlockOutcome.normal (some (Exn.other 7)) := rfl
example : UnlockJniSynchronizedMethod (some (Exn.other 7)) (some (Exn.other 8)) =
  UnlockOutcome.fatal := rfl

/-- `resolveTypeStep` touches only the pending exception and the resolver
call counter: the world (in particular every class's initialization state)
and the `EnsureInitialized` counter pass through unchanged. -/
theorem resolveTypeStep_preserves (type_idx method : Nat) (s : RState) :
    ((resolveTypeStep type_idx method s).2).world = s.world ∧
    ((resolveTypeStep type_idx method s).2).ensureInitCalls = s.ensureInitCalls := by
  unfold resolveTypeStep
  rcases h : (s.world.classes (s.world.methods method).declaringClass).dexCacheTypes type_idx
    with _ | k
  · rcases h2 : s.world.resolveType type_idx method with _ | k2 <;> simp [h, h2]
  · simp [h]

/-! ### Claim theorems -/

/-- C1 counterexample: with no pending exception on entry and the monitor
exit itself raising, `UnlockJniSynchronizedMethod` does not return normally
with that exception pending — it hits the unconditional `LOG(FATAL)`
(which would moreover dereference the null `saved_exception`). -/
theorem unlockJni_singleException_counterexample :
    UnlockJniSynchronizedMethod none (some (Exn.other 0)) = UnlockOutcome.fatal ∧
    UnlockJniSynchronizedMethod none (some (Exn.other 0)) ≠
      UnlockOutcome.normal (some (Exn.other 0)) := by
  decide

/-- C1 (amended): for every call to the monitor-release guard in which no
exception is pending on entry and the monitor exit itself raises an
exception, the routine aborts the process (the fatal secondary-exception
check fires whenever the monitor exit leaves an exception pending,
regardless of the entry state), rather than returning with the exception
pending. -/
theorem unlockJni_exitException_fatal (e : Exn) :
    UnlockJniSynchronizedMethod none (some e) = UnlockOutcome.fatal := rfl

/-- C1 amended-claim witness at a concrete exception value. -/
theorem unlockJni_exitException_fatal_witness :
    UnlockJniSynchronizedMethod none (some (Exn.other 3)) = UnlockOutcome.fatal :=
  unlockJni_exitException_fatal (Exn.other 3)

/-- C2: a negative `component_count` makes `AllocArrayFromCode` fail with a
`NegativeArraySizeException` carrying the offending value, and the
resulting state differs from the input only in the pending exception — in
particular `resolveCalls` is untouched, so no type resolution (hence no
class loading) happened before the check. -/
theorem allocArray_negativeCount (type_idx method : Nat) (component_count : Int)
    (access_check : Bool) (s : RState) (h : component_count < 0) :
    AllocArrayFromCode type_idx method component_count access_check s =
      ArrOutcome.ret none
        { s with pendingException := some (Exn.negativeArraySize component_count) } := by
  unfold AllocArrayFromCode
  simp [h]

/-- C2 witness: length `-1` fails with `NegativeArraySizeException(-1)` and
the resolver call counter stays at zero. -/
theorem allocArray_negativeCount_witness :
    AllocArrayFromCode 0 0 (-1) false state0 =
      ArrOutcome.ret none
        { state0 with pendingException := some (Exn.negativeArraySize (-1)) } :=
  allocArray_negativeCount 0 0 (-1) false state0 (by decide)

/-- `CheckSuspend` on a thread with the checkpoint flag set first runs the
checkpoint and clears the flag, then loops. -/
theorem checkSuspend_cpStep (t : SThread) (h : t.checkpointRequest = true) :
    CheckSuspend t =
      CheckSuspend { t with checkpointRequest := false,
                            checkpointRuns := t.checkpointRuns + 1 } := by
  conv_lhs => unfold CheckSuspend
  simp [h]

/-- `CheckSuspend` on a thread with only the suspend flag set goes through
one full suspend round, then loops. -/
theorem checkSuspend_suspStep (t : SThread) (h1 : t.checkpointRequest = false)
    (h2 : t.suspendRequest = true) :
    CheckSuspend t =
      CheckSuspend { t with suspendRequest := false,
                            suspendRounds := t.suspendRounds + 1 } := by
  conv_lhs => unfold CheckSuspend
  simp [h1, h2]

/-- `CheckSuspend` with neither flag set returns the thread unchanged. -/
theorem checkSuspend_done (t : SThread) (h1 : t.checkpointRequest = false)
    (h2 : t.suspendRequest = false) : CheckSuspend t = t := by
  unfold CheckSuspend
  simp [h1, h2]

/-- C6: `CheckSuspend` with neither flag set returns immediately with the
thread unchanged (no blocking, no checkpoint run); with the checkpoint
flag set it runs the checkpoint function exactly once and leaves the flag
cleared; and on any iteration where the checkpoint flag is set, the
checkpoint branch is taken before the suspend branch is considered. -/
theorem checkSuspend_claim (t : SThread) :
    (t.checkpointRequest = false → t.suspendRequest = false → CheckSuspend t = t) ∧
    (t.checkpointRequest = true →
      (CheckSuspend t).checkpointRuns = t.checkpointRuns + 1 ∧
      (CheckSuspend t).checkpointRequest = false) ∧
    (t.checkpointRequest = true →
      CheckSuspend t =
        CheckSuspend { t with checkpointRequest := false,
                              checkpointRuns := t.checkpointRuns + 1 }) := by
  refine ⟨fun h1 h2 => checkSuspend_done t h1 h2, fun h => ?_, fun h => checkSuspend_cpStep t h⟩
  rw [checkSuspend_cpStep t h]
  rcases hs : t.suspendRequest with _ | _
  · rw [checkSuspend_done ⟨false, false, t.checkpointRuns + 1, t.suspendRounds⟩ rfl rfl]
    exact ⟨rfl, rfl⟩
  · rw [checkSuspend_suspStep ⟨false, true, t.checkpointRuns + 1, t.suspendRounds⟩ rfl rfl,
      checkSuspend_done ⟨false, false, t.checkpointRuns + 1, t.suspendRounds + 1⟩ rfl rfl]
    exact ⟨rfl, rfl⟩

/-- C6 witness: a thread with neither flag set is returned unchanged. -/
theorem checkSuspend_claim_witness :
    CheckSuspend ⟨false, false, 0, 0⟩ = ⟨false, false, 0, 0⟩ :=
  (checkSuspend_claim ⟨false, false, 0, 0⟩).1 rfl rfl

/-- C4: when the resolution-cache slot for an index is empty, both
fast-path resolvers return the absent sentinel. The embedding makes the
rest of the claim structural: the source functions take no `Thread*` and
perform only const reads, so they embed as pure functions of the world —
no pending exception can be set and no state can be mutated. -/
theorem fastPath_cacheMiss_absent (w : World) (idx referrer : Nat)
    (fty : FindFieldType) (sz : Nat) (obj : Option Nat) (ac : Bool)
    (mty : InvokeType)
    (hf : (w.classes (w.methods referrer).declaringClass).dexCacheFields idx = none)
    (hm : (w.classes (w.methods referrer).declaringClass).dexCacheMethods idx = none) :
    FindFieldFast w idx referrer fty sz = none ∧
    FindMethodFast w idx obj referrer ac mty = none := by
  constructor
  · unfold FindFieldFast
    simp [hf]
  · unfold FindMethodFast
    simp [hm]

/-- C4 witness: empty caches in `world0` give the absent sentinel from
both fast paths. -/
theorem fastPath_cacheMiss_absent_witness :
    FindFieldFast world0 0 0 .InstancePrimitiveRead 4 = none ∧
    FindMethodFast world0 0 (some 1) 0 true .kVirtual = none :=
  fastPath_cacheMiss_absent world0 0 0 .InstancePrimitiveRead 4 (some 1) true
    .kVirtual rfl rfl

/-- C5: with `access_check` on, allocation of a resolved non-instantiable
class fails with `InstantiationError` (not `IllegalAccessError`, the
instantiability gate coming first), the pending exception is set, and the
class-initialization snapshot and `EnsureInitialized` call counter are
those of the entry state — no initialization was triggered. -/
theorem allocObject_notInstantiable (type_idx method klass : Nat) (s s1 : RState)
    (hres : resolveTypeStep type_idx method s = (some klass, s1))
    (hinst : (s1.world.classes klass).isInstantiable = false) :
    AllocObjectFromCode type_idx method true s =
      (none, { s1 with pendingException := some (Exn.instantiationError klass) }) ∧
    s1.world.initState = s.world.initState ∧
    s1.ensureInitCalls = s.ensureInitCalls := by
  refine ⟨?_, ?_, ?_⟩
  · unfold AllocObjectFromCode
    rw [hres]
    simp [hinst]
  · have h := resolveTypeStep_preserves type_idx method s
    rw [hres] at h
    exact congrArg World.initState h.1
  · have h := resolveTypeStep_preserves type_idx method s
    rw [hres] at h
    exact h.2

/-- C5 witness: allocating the cached non-instantiable class 1 with the
access check on fails with `InstantiationError 1`. -/
theorem allocObject_notInstantiable_witness :
    AllocObjectFromCode 0 0 true state5 =
      (none, { state5 with pendingException := some (Exn.instantiationError 1) }) :=
  (allocObject_notInstantiable 0 0 1 state5 state5 rfl rfl).1

/-- C7: `FindFieldFast` returns the absent sentinel whenever the cached
field's primitive-vs-object classification or declared storage size
disagrees with the request, and consequently every non-absent result has
exactly the requested classification and size. -/
theorem findFieldFast_sizeClassification :
    (∀ (w : World) (idx referrer : Nat) (fty : FindFieldType) (sz fid : Nat),
      (w.classes (w.methods referrer).declaringClass).dexCacheFields idx = some fid →
      ((w.fields fid).isPrimitiveType ≠ (classifyFieldType fty).1 ∨
        (w.fields fid).fieldSize ≠ sz) →
      FindFieldFast w idx referrer fty sz = none) ∧
    (∀ (w : World) (idx referrer : Nat) (fty : FindFieldType) (sz fid : Nat),
      FindFieldFast w idx referrer fty sz = some fid →
      (w.fields fid).isPrimitiveType = (classifyFieldType fty).1 ∧
      (w.fields fid).fieldSize = sz) := by
  constructor
  · intro w idx referrer fty sz fid hc hbad
    unfold FindFieldFast
    rw [hc]
    simp only []
    split_ifs <;> simp_all
  · intro w idx referrer fty sz fid h
    unfold FindFieldFast at h
    rcases hc : (w.classes (w.methods referrer).declaringClass).dexCacheFields idx
      with _ | fid'
    · rw [hc] at h
      simp at h
    · rw [hc] at h
      simp only [] at h
      split_ifs at h
      simp_all

/-- C7 witness: the cached 4-byte field 0 looked up with `expected_size`
8 comes back absent. -/
theorem findFieldFast_sizeClassification_witness :
    FindFieldFast worldF 0 0 .InstancePrimitiveRead 8 = none :=
  findFieldFast_sizeClassification.1 worldF 0 0 .InstancePrimitiveRead 8 0 rfl
    (Or.inr (by decide))

/-- When the receiver guard and cache hit hold and the optional checks
pass (or are disabled), `FindMethodFast` reaches the final dispatch step
on the cached method. -/
theorem findMethodFast_reach (w : World) (idx : Nat) (obj : Option Nat)
    (referrer : Nat) (ac : Bool) (ty : InvokeType) (m : Nat)
    (hguard : ¬(obj = none ∧ ¬(ty = InvokeType.kStatic ∨ ty = InvokeType.kDirect)))
    (hcache : (w.classes (w.methods referrer).declaringClass).dexCacheMethods idx = some m)
    (hchecks : ac = true → w.icce m ty = false ∧
      w.canAccess (w.methods referrer).declaringClass (w.methods m).declaringClass = true ∧
      w.canAccessMember (w.methods referrer).declaringClass (w.methods m).declaringClass
        (w.methods m).accessFlags = true) :
    FindMethodFast w idx obj referrer ac ty = methodDispatch w obj referrer ty m := by
  unfold FindMethodFast
  rw [if_neg hguard, hcache]
  rcases ac with _ | _
  · rfl
  · obtain ⟨h1, h2, h3⟩ := hchecks rfl
    simp [h1, h2, h3]

/-- C3: once the final dispatch step is reached, the result is fixed by
the dispatch kind — static/direct return the cached method unchanged,
interface re-resolves the cached method against the receiver's runtime
class's interface table, super indexes the referring class's superclass's
vtable at the cached method's slot, virtual indexes the receiver's runtime
class's vtable at the cached method's slot. -/
theorem findMethodFast_dispatch (w : World) (idx : Nat) (obj : Option Nat)
    (referrer : Nat) (ac : Bool) (ty : InvokeType) (m : Nat)
    (hcache : (w.classes (w.methods referrer).declaringClass).dexCacheMethods idx = some m)
    (hchecks : ac = true → w.icce m ty = false ∧
      w.canAccess (w.methods referrer).declaringClass (w.methods m).declaringClass = true ∧
      w.canAccessMember (w.methods referrer).declaringClass (w.methods m).declaringClass
        (w.methods m).accessFlags = true) :
    ((ty = InvokeType.kStatic ∨ ty = InvokeType.kDirect) →
      FindMethodFast w idx obj referrer ac ty = some m) ∧
    (∀ o, obj = some o → ty = InvokeType.kInterface →
      FindMethodFast w idx obj referrer ac ty =
        (w.classes (w.objects o)).findVirtualForInterface m) ∧
    (∀ o, obj = some o → ty = InvokeType.kVirtual →
      FindMethodFast w idx obj referrer ac ty =
        some ((w.classes (w.objects o)).vtable (w.methods m).methodIndex)) ∧
    (∀ o, obj = some o → ty = InvokeType.kSuper →
      FindMethodFast w idx obj referrer ac ty =
        some ((w.classes (w.classes (w.methods referrer).declaringClass).superClass).vtable
          (w.methods m).methodIndex)) := by
  refine ⟨?_, ?_, ?_, ?_⟩
  · intro hd
    rw [findMethodFast_reach w idx obj referrer ac ty m (fun h => h.2 hd) hcache hchecks]
    rcases hd with h | h <;> subst h <;> rfl
  · intro o ho hty
    subst ho; subst hty
    rw [findMethodFast_reach w idx (some o) referrer ac InvokeType.kInterface m
      (by simp) hcache hchecks]
    rfl
  · intro o ho hty
    subst ho; subst hty
    rw [findMethodFast_reach w idx (some o) referrer ac InvokeType.kVirtual m
      (by simp) hcache hchecks]
    rfl
  · intro o ho hty
    subst ho; subst hty
    rw [findMethodFast_reach w idx (some o) referrer ac InvokeType.kSuper m
      (by simp) hcache hchecks]
    rfl

/-- C3 witness: virtual dispatch through `worldM` lands in slot 2 of the
receiver class's vtable. -/
theorem findMethodFast_dispatch_witness :
    FindMethodFast worldM 0 (some 9) 0 false .kVirtual = some 42 :=
  ((findMethodFast_dispatch worldM 0 (some 9) 0 false .kVirtual 5 rfl
    (by simp)).2.2.1) 9 rfl rfl

/-- C8 counterexample: with the resolved class coming from the resolution
cache, `AllocArrayFromCode` performs the allocation with a class that is
not an array class and no fatal assertion fires — the `CHECK` sits only on
the slow-resolution branch. -/
theorem allocArray_cachedNonArray_counterexample :
    AllocArrayFromCode 0 0 3 false stateArr = ArrOutcome.ret (some 101) stateArr ∧
    (stateArr.world.classes 1).isArrayClass = false :=
  ⟨rfl, rfl⟩

/-- C8 (amended): the array-class invariant is enforced as a fatal
assertion only when the class is obtained through slow-path resolution —
slow-path success on a non-array class aborts — while a class coming from
the resolution cache is used for allocation without the check. -/
theorem allocArray_slowPathArrayCheck (type_idx method : Nat) (component_count : Int)
    (access_check : Bool) (s : RState) (klass : Nat)
    (hlen : 0 ≤ component_count)
    (hmiss : (s.world.classes (s.world.methods method).declaringClass).dexCacheTypes
      type_idx = none)
    (hres : s.world.resolveType type_idx method = some klass)
    (harr : (s.world.classes klass).isArrayClass = false) :
    AllocArrayFromCode type_idx method component_count access_check s =
      ArrOutcome.fatal klass := by
  have hneg : ¬(component_count < 0) := not_lt.mpr hlen
  unfold AllocArrayFromCode
  rw [if_neg hneg, hmiss, hres]
  simp [harr]

/-- C8 witness for the amended claim: slow-path resolution of the
non-array class 1 hits the fatal assertion. -/
theorem allocArray_slowPathArrayCheck_witness :
    AllocArrayFromCode 0 0 3 false stateSlow = ArrOutcome.fatal 1 :=
  allocArray_slowPathArrayCheck 0 0 3 false stateSlow 1 (by decide) rfl rfl rfl

/-- `allocArrayTail` never touches the `EnsureInitialized` counter or the
world (it only records an access failure or delegates allocation). -/
theorem allocArrayTail_preserves (klass : Nat) (n : Int) (method : Nat) (ac : Bool)
    (s s' : RState) (h : (allocArrayTail klass n method ac s).state? = some s') :
    s'.ensureInitCalls = s.ensureInitCalls ∧ s'.world = s.world := by
  unfold allocArrayTail at h
  split_ifs at h <;> simp [ArrOutcome.state?] at h <;> subst h <;> exact ⟨rfl, rfl⟩

/-- C9: `AllocArrayFromCode` never calls `EnsureInitialized` and leaves
every class's initialization state unchanged whenever it returns, while
`AllocObjectFromCode` on a cached uninitialized class does call
`EnsureInitialized` (once) and leaves the class initialized. -/
theorem allocArray_noEnsureInit :
    (∀ (type_idx method : Nat) (component_count : Int) (access_check : Bool)
        (s s' : RState),
      (AllocArrayFromCode type_idx method component_count access_check s).state? =
        some s' →
      s'.ensureInitCalls = s.ensureInitCalls ∧
      s'.world.initState = s.world.initState) ∧
    (∀ (type_idx method klass : Nat) (s : RState),
      (s.world.classes (s.world.methods method).declaringClass).dexCacheTypes
        type_idx = some klass →
      s.world.initState klass = InitState.uninitialized →
      s.world.ensureInitOk klass = true →
      (AllocObjectFromCode type_idx method false s).2.ensureInitCalls =
        s.ensureInitCalls + 1 ∧
      (AllocObjectFromCode type_idx method false s).2.world.initState klass =
        InitState.initialized) := by
  constructor
  · intro type_idx method n ac s s' h
    unfold AllocArrayFromCode at h
    split_ifs at h
    · simp [ArrOutcome.state?] at h
      subst h
      exact ⟨rfl, rfl⟩
    · split at h
      · have hp := allocArrayTail_preserves _ n method ac s s' h
        exact ⟨hp.1, congrArg World.initState hp.2⟩
      · split at h
        · simp [ArrOutcome.state?] at h
          subst h
          exact ⟨rfl, rfl⟩
        · split_ifs at h
          · simp [ArrOutcome.state?] at h
          · have hp := allocArrayTail_preserves _ n method ac
              { s with resolveCalls := s.resolveCalls + 1 } s' h
            exact ⟨hp.1, congrArg World.initState hp.2⟩
  · intro type_idx method klass s hcache hinit hok
    have hres : resolveTypeStep type_idx method s = (some klass, s) := by
      unfold resolveTypeStep
      rw [hcache]
    unfold AllocObjectFromCode
    rw [hres]
    simp only [Bool.false_eq_true, false_and, if_false]
    unfold allocObjectTail
    rw [hinit]
    simp [hok, InitState.isInitializedB]

/-- C9 witness: an array allocation that goes through failing slow-path
resolution still leaves the `EnsureInitialized` counter and the
initialization snapshot untouched. -/
theorem allocArray_noEnsureInit_witness :
    ({ state0 with pendingException := some (Exn.other 1),
                   resolveCalls := 1 } : RState).ensureInitCalls =
      state0.ensureInitCalls :=
  (allocArray_noEnsureInit.1 0 0 3 false state0
    { state0 with pendingException := some (Exn.other 1), resolveCalls := 1 } rfl).1

/-- C10: with `access_check` false, `FindMethodFast` consults neither the
incompatible-class-change predicate nor the visibility predicates — its
result is invariant under arbitrary replacement of all three — whereas
`FindFieldFast` has no such opt-out: a failing class-access, member-access
or final-field-write check forces the absent sentinel on every call. -/
theorem fastPath_accessCheckOptOut :
    (∀ (w : World) (ic : Nat → InvokeType → Bool) (ca : Nat → Nat → Bool)
        (cam : Nat → Nat → Nat → Bool) (idx : Nat) (obj : Option Nat)
        (referrer : Nat) (ty : InvokeType),
      FindMethodFast { w with icce := ic, canAccess := ca, canAccessMember := cam }
          idx obj referrer false ty =
        FindMethodFast w idx obj referrer false ty) ∧
    (∀ (w : World) (idx referrer : Nat) (fty : FindFieldType) (sz fid : Nat),
      (w.classes (w.methods referrer).declaringClass).dexCacheFields idx = some fid →
      (w.canAccess (w.methods referrer).declaringClass (w.fields fid).declaringClass
          = false ∨
        w.canAccessMember (w.methods referrer).declaringClass
          (w.fields fid).declaringClass (w.fields fid).accessFlags = false ∨
        ((classifyFieldType fty).2.1 = true ∧ (w.fields fid).isFinal = true ∧
          (w.fields fid).declaringClass ≠ (w.methods referrer).declaringClass)) →
      FindFieldFast w idx referrer fty sz = none) := by
  constructor
  · intro w ic ca cam idx obj referrer ty
    rfl
  · intro w idx referrer fty sz fid hc hbad
    unfold FindFieldFast
    rw [hc]
    simp only []
    split_ifs <;> simp_all

/-- C10 witness: with all class-access queries denied, the cached field 0
is rejected by `FindFieldFast`. -/
theorem fastPath_accessCheckOptOut_witness :
    FindFieldFast worldFDeny 0 0 .InstancePrimitiveRead 4 = none :=
  fastPath_accessCheckOptOut.2 worldFDeny 0 0 .InstancePrimitiveRead 4 0 rfl
    (Or.inl rfl)

end Art
